import Mathlib

/-!
Shallow embedding of the Agentverse server core: the LLM provider adapter
(`src/server/llm/LLMProvider.ts`), the unified message coordinator and the
simple agent manager (`src/server/agents/AgentManager.ts` and the coordinator
source file), the project generator, and the agent executor.

External effects (HTTP calls made through provider SDKs, the email service,
`JSON.parse` on arbitrary upstream text, `Date.now()`) are passed in as
explicit oracles/parameters; every function of the embedding is total, so a
TypeScript `throw` is modelled by an `Except.error` value and a `try/catch`
by matching on it.  JavaScript machine strings are modelled by Lean `String`
(`toLowerCase` as a character-wise `Char.toLower` map), JavaScript numbers on
the integer-valued paths by `Nat`, and `undefined`/missing values by
`Option`.
-/

namespace Agentverse

/-- JavaScript truthiness of a `string | undefined` value: `undefined` and
the empty string are falsy, every other string is truthy. -/
def jsTruthy : Option String → Bool
  | none => false
  | some s => !(s == "")

/-- JavaScript `a || b` for `a : string | undefined` and a string default:
returns `b` exactly when `a` is falsy. -/
def jsOr (a : Option String) (b : String) : String :=
  if jsTruthy a then a.getD "" else b

/-- `Math.round (num / den)` for non-negative operands: round half up,
computed exactly over `Nat` as `⌊num/den + 1/2⌋ = (2*num + den) / (2*den)`. -/
def jsRound (num den : Nat) : Nat :=
  (2 * num + den) / (2 * den)

/-- `String.prototype.toLowerCase`, modelled character-wise. -/
def strToLower (s : String) : String :=
  ⟨s.data.map Char.toLower⟩

/-- Substring test on character lists: does `pat` occur contiguously in `l`?
Backs the model of `String.prototype.includes`. -/
def containsSub (l pat : List Char) : Bool :=
  match l with
  | [] => pat.isEmpty
  | _ :: rest => pat.isPrefixOf l || containsSub rest pat

/-- `s.includes(pat)` on JavaScript strings. -/
def jsIncludes (s pat : String) : Bool :=
  containsSub s.data pat.data

/-- Drop one leading newline character if present; models the optional `\n?`
tail of the code-fence regexes. -/
def dropNl : List Char → List Char
  | '\n' :: rest => rest
  | l => l

theorem dropNl_length_le (l : List Char) : (dropNl l).length ≤ l.length := by
  unfold dropNl
  split
  · simp
  · exact le_refl _

/-- One global-replace pass of the regex `pat\n?` by the empty string, as in
`text.replace(/```json\n?/g, "")`: scan left to right, and at each match drop
the pattern plus one optional trailing newline, continuing after the match. -/
def removeAllCL (pat : List Char) : List Char → List Char
  | [] => []
  | c :: rest =>
    if pat ≠ [] ∧ pat.isPrefixOf (c :: rest) then
      removeAllCL pat (dropNl ((c :: rest).drop pat.length))
    else
      c :: removeAllCL pat rest
termination_by l => l.length
decreasing_by
  · rename_i head h
    have hlen : 0 < pat.length := List.length_pos.mpr h.1
    have h2 := dropNl_length_le ((head :: rest).drop pat.length)
    simp only [List.length_drop, List.length_cons] at h2 ⊢
    omega
  · simp only [List.length_cons]
    omega

/-- String-level wrapper for `removeAllCL`. -/
def removeAllNl (pat s : String) : String :=
  ⟨removeAllCL pat.data s.data⟩

/-- The fence stripping shared by the quiz/schedule generators: trim, then if
the text starts with a fenced block, globally delete the fence markers
(with their optional trailing newline) and trim again. -/
def cleanQuizText (text0 : String) : String :=
  let text := text0.trim
  if text.startsWith "```json" then
    (removeAllNl "```" (removeAllNl "```json" text)).trim
  else if text.startsWith "```" then
    (removeAllNl "```" text).trim
  else text

/-- Hex digit used by the JSON escaper for control characters. -/
def hexDigit (n : Nat) : Char :=
  if n < 10 then Char.ofNat (48 + n) else Char.ofNat (87 + n)

/-- `JSON.stringify` escaping of one character. -/
def jsonEscapeChar (c : Char) : String :=
  if c = '"' then "\\\""
  else if c = '\\' then "\\\\"
  else if c = '\n' then "\\n"
  else if c = '\r' then "\\r"
  else if c = '\t' then "\\t"
  else if c = '\x08' then "\\b"
  else if c = '\x0c' then "\\f"
  else if c.toNat < 32 then
    String.mk ['\\', 'u', '0', '0', hexDigit (c.toNat / 16), hexDigit (c.toNat % 16)]
  else String.singleton c

/-- `JSON.stringify` escaping of a string value (without the outer quotes). -/
def jsonEscape (s : String) : String :=
  s.data.foldl (fun acc c => acc ++ jsonEscapeChar c) ""

/-! ### Provider adapter environment (`LLMProvider.detectProvider`) -/

/-- The three credential environment variables read by the provider adapter. -/
structure Env where
  geminiKey : Option String
  openaiKey : Option String
  anthropicKey : Option String

/-- `LLMProvider.detectProvider`: first configured credential wins, in the
fixed order gemini, openai, anthropic; otherwise `"mock"`. -/
def detectProvider (env : Env) : String :=
  if jsTruthy env.geminiKey = true then "gemini"
  else if jsTruthy env.openaiKey = true then "openai"
  else if jsTruthy env.anthropicKey = true then "anthropic"
  else "mock"

/-! ### Chat messages and upstream SDK oracles -/

/-- A chat message as passed to `LLMProvider.chat`. -/
structure Message where
  role : String
  content : String
deriving DecidableEq, Repr

/-- The `{content, provider}` response shape of every adapter entry point. -/
structure ChatResponse where
  content : String
  provider : String
deriving DecidableEq, Repr

/-- One turn of the Gemini chat history built by `chatWithGemini`. -/
structure GeminiTurn where
  role : String
  text : String
deriving DecidableEq, Repr

/-- The provider SDK boundary.  Each field is one SDK call the adapter makes;
`Except.error` models a rejected promise / thrown SDK error, which the
adapter's `try/catch` turns into the mock response.  `openaiCreate` returns
`choices[0]?.message?.content` (possibly absent), `anthropicCreate` returns
the first content block's text when it is a text block (`none` for a
non-text block; a missing block is a thrown access, i.e. `Except.error`). -/
structure Upstream where
  geminiSend : List GeminiTurn → String → Except Unit String
  geminiGenerate : String → Except Unit String
  openaiCreate : List Message → Except Unit (Option String)
  anthropicCreate : String → List Message → Except Unit (Option String)

/-- The conciseness suffix appended to the system prompt by all three
provider-specific chat paths (identical text in each). -/
def conciseSuffix : String :=
  "\n\nIMPORTANT: Provide only the essential answer in under 120 words. Format your response in three sections:\n1. **Summary** (1-2 sentences)\n2. **Key Points** (bullet list, 3 items or fewer)\n3. **Recommended Action** (optional, only when relevant)\n\nOmit internal reasoning and verbose explanations. Be concise and focused."

/-- The fixed text of the mock chat response. -/
def mockChatText : String :=
  "**Summary**\nRunning in mock mode (no LLM API configured). Limited responses available.\n\n**Key Points**\n• Configure GEMINI_API_KEY for Google Gemini 2.0\n• Configure OPENAI_API_KEY for GPT-3.5 access\n• Configure ANTHROPIC_API_KEY for Claude access\n\n**Recommended Action**\nAdd an API key to environment variables for intelligent AI responses."

/-- `LLMProvider.mockChat`: a deterministic canned response tagged `"mock"`.
(The source also reads the last message's content into a local it never
uses; the argument is kept for signature fidelity.) -/
def mockChat (_messages : List Message) : ChatResponse :=
  ChatResponse.mk mockChatText "mock"

/-- `LLMProvider.mockQuiz`: `JSON.stringify` of the canned single-question
quiz object, with the topic interpolated. -/
def mockQuiz (topic : String) : ChatResponse :=
  ChatResponse.mk
    ("\x7b\"questions\":[\x7b\"question\":\"What is a key concept in " ++ jsonEscape topic ++
     "?\",\"options\":[\"Mock answer A (configure GEMINI_API_KEY for real questions)\",\"Mock answer B\",\"Mock answer C\",\"Mock answer D\"],\"correctAnswer\":0,\"explanation\":\"This is a mock quiz. Add GEMINI_API_KEY or OPENAI_API_KEY environment variable to generate real educational quizzes.\"\x7d]\x7d")
    "mock"

/-- `LLMProvider.mockSchedule`: `JSON.stringify` of the canned one-day
schedule object, with topic and duration interpolated. -/
def mockSchedule (topic duration : String) : ChatResponse :=
  ChatResponse.mk
    ("\x7b\"topic\":\"" ++ jsonEscape topic ++ "\",\"totalDuration\":\"" ++ jsonEscape duration ++
     "\",\"estimatedHoursPerDay\":2,\"schedule\":[\x7b\"day\":1,\"title\":\"Getting Started\",\"duration\":\"2 hours\",\"topics\":[\"Introduction\",\"Basic Concepts\"],\"description\":\"This is a mock schedule. Add GEMINI_API_KEY or OPENAI_API_KEY to generate personalized AI-powered study schedules.\",\"completed\":false\x7d],\"tips\":[\"Configure GEMINI_API_KEY for AI-generated schedules\",\"Set realistic daily study goals\",\"Take breaks between study sessions\"]\x7d")
    "mock"

/-- `LLMProvider.chatWithGemini`: split out the system message, build the
history from all but the last non-system message, send the enhanced prompt
(first turn) or just the last user message, and fall back to the mock
response if the SDK call throws. -/
def chatWithGemini (up : Upstream) (messages : List Message) : ChatResponse :=
  let systemMessage := ((messages.find? (fun m => m.role == "system")).map Message.content).getD ""
  let userMessages := messages.filter (fun m => !(m.role == "system"))
  let enhancedSystemPrompt := systemMessage ++ conciseSuffix
  let chatHistory := userMessages.dropLast.map
    (fun m => GeminiTurn.mk (if m.role == "user" then "user" else "model") m.content)
  let lastUserMessage := ((userMessages.getLast?).map Message.content).getD ""
  let fullPrompt :=
    if chatHistory.isEmpty then enhancedSystemPrompt ++ "\n\nUser: " ++ lastUserMessage
    else lastUserMessage
  match up.geminiSend chatHistory fullPrompt with
  | Except.ok text => ChatResponse.mk text "gemini"
  | Except.error _ => mockChat messages

/-- `LLMProvider.chatWithOpenAI`: append the conciseness suffix to system
messages, call the SDK, default a missing/empty completion to
`"No response"`, and fall back to the mock response on a thrown error. -/
def chatWithOpenAI (up : Upstream) (messages : List Message) : ChatResponse :=
  let enhancedMessages := messages.map
    (fun m => if m.role == "system" then Message.mk m.role (m.content ++ conciseSuffix) else m)
  match up.openaiCreate enhancedMessages with
  | Except.ok contentOpt => ChatResponse.mk (jsOr contentOpt "No response") "openai"
  | Except.error _ => mockChat messages

/-- `LLMProvider.chatWithAnthropic`: system prompt plus suffix, non-system
messages forwarded; a non-text first content block yields `"No response"`,
a thrown SDK error falls back to the mock response. -/
def chatWithAnthropic (up : Upstream) (messages : List Message) : ChatResponse :=
  let systemMessage :=
    (((messages.find? (fun m => m.role == "system")).map Message.content).getD "") ++ conciseSuffix
  let userMessages := messages.filter (fun m => !(m.role == "system"))
  match up.anthropicCreate systemMessage userMessages with
  | Except.ok (some text) => ChatResponse.mk text "anthropic"
  | Except.ok none => ChatResponse.mk "No response" "anthropic"
  | Except.error _ => mockChat messages

/-- `LLMProvider.chat`: dispatch on the provider detected at process start
(re-checking the credential, as the source does), defaulting to the mock. -/
def chat (env : Env) (up : Upstream) (messages : List Message) : ChatResponse :=
  if detectProvider env = "gemini" ∧ jsTruthy env.geminiKey = true then
    chatWithGemini up messages
  else if detectProvider env = "openai" ∧ jsTruthy env.openaiKey = true then
    chatWithOpenAI up messages
  else if detectProvider env = "anthropic" ∧ jsTruthy env.anthropicKey = true then
    chatWithAnthropic up messages
  else mockChat messages

/-- The prompt built by `generateQuizWithGemini` (timestamp = `Date.now()`). -/
def geminiQuizPrompt (topic : String) (goals : Option String) (ts : Nat) : String :=
  "Generate 3 unique, educational multiple-choice quiz questions about \"" ++ topic ++ "\". " ++
  (if jsTruthy goals = true then "Focus on: " ++ goals.getD "" ++ ". " else "") ++
  "\n\nGenerate DIFFERENT questions each time - avoid common questions. Include variety in difficulty and topics.\n\nTimestamp for uniqueness: " ++
  toString ts ++
  "\n\nReturn ONLY valid JSON in this exact format (no markdown, no backticks, no extra text):\n\x7b\n  \"questions\": [\n    \x7b\n      \"question\": \"Question text here?\",\n      \"options\": [\"Option A\", \"Option B\", \"Option C\", \"Option D\"],\n      \"correctAnswer\": 0,\n      \"explanation\": \"Explanation of why this is correct\"\n    \x7d\n  ]\n\x7d\n\nRules:\n- correctAnswer is the index (0-3) of the correct option\n- Each question must be different and educational\n- Make questions practical and relevant\n- Vary the difficulty level"

/-- The two messages sent by `generateQuizWithOpenAI`. -/
def openaiQuizMessages (topic : String) (goals : Option String) (ts : Nat) : List Message :=
  [Message.mk "system"
     "You are a quiz generator. Generate educational quiz questions in JSON format. Return ONLY valid JSON, no markdown code blocks, no extra text.",
   Message.mk "user"
     ("Generate 3 unique multiple-choice quiz questions about \"" ++ topic ++ "\". " ++
      (if jsTruthy goals = true then "Focus on: " ++ goals.getD "" ++ ". " else "") ++
      "Timestamp: " ++ toString ts ++
      ". Return valid JSON with format: \x7b\"questions\": [\x7b\"question\": \"...\", \"options\": [\"A\", \"B\", \"C\", \"D\"], \"correctAnswer\": 0, \"explanation\": \"...\"\x7d]\x7d")]

/-- The prompt built by `generateScheduleWithGemini`. -/
def geminiSchedulePrompt (topic duration : String) (goals : Option String) (ts : Nat) : String :=
  "Create a personalized study schedule for learning \"" ++ topic ++ "\" over " ++ duration ++ ". " ++
  (if jsTruthy goals = true then "Learning goals: " ++ goals.getD "" ++ ". " else "") ++
  "\n\nAnalyze the topic complexity and create a realistic day-by-day learning plan.\n\nTimestamp for uniqueness: " ++
  toString ts ++
  "\n\nReturn ONLY valid JSON in this exact format (no markdown, no backticks, no extra text):\n\x7b\n  \"topic\": \"" ++ topic ++
  "\",\n  \"totalDuration\": \"" ++ duration ++
  "\",\n  \"estimatedHoursPerDay\": 2,\n  \"schedule\": [\n    \x7b\n      \"day\": 1,\n      \"title\": \"Introduction and Fundamentals\",\n      \"duration\": \"2 hours\",\n      \"topics\": [\"Topic 1\", \"Topic 2\"],\n      \"description\": \"Detailed description of what to learn and practice\",\n      \"completed\": false\n    \x7d\n  ],\n  \"tips\": [\"Helpful tip 1\", \"Helpful tip 2\"]\n\x7d\n\nRules:\n- Break down the learning journey into daily chunks\n- Each day should have realistic hours (1-3 hours per day)\n- Progress from fundamentals to advanced topics\n- Include practical exercises and projects\n- Provide 3-5 helpful study tips\n- Make the schedule achievable and motivating"

/-- The two messages sent by `generateScheduleWithOpenAI`. -/
def openaiScheduleMessages (topic duration : String) (goals : Option String) (ts : Nat) : List Message :=
  [Message.mk "system"
     "You are a study schedule planner. Create personalized learning schedules in JSON format. Return ONLY valid JSON, no markdown code blocks, no extra text.",
   Message.mk "user"
     ("Create a study schedule for \"" ++ topic ++ "\" over " ++ duration ++ ". " ++
      (if jsTruthy goals = true then "Goals: " ++ goals.getD "" ++ ". " else "") ++
      "Timestamp: " ++ toString ts ++
      ". Return valid JSON with format: \x7b\"topic\": \"...\", \"totalDuration\": \"...\", \"estimatedHoursPerDay\": 2, \"schedule\": [\x7b\"day\": 1, \"title\": \"...\", \"duration\": \"...\", \"topics\": [\"...\"], \"description\": \"...\", \"completed\": false\x7d], \"tips\": [\"...\"]\x7d")]

/-- `LLMProvider.generateQuiz`: only gemini and openai branches exist; any
other detected provider (including anthropic) falls straight to the mock
quiz, as does a thrown SDK error. -/
def generateQuiz (env : Env) (up : Upstream) (topic : String) (goals : Option String) (now : Nat) :
    ChatResponse :=
  if detectProvider env = "gemini" ∧ jsTruthy env.geminiKey = true then
    match up.geminiGenerate (geminiQuizPrompt topic goals now) with
    | Except.ok text => ChatResponse.mk (cleanQuizText text) "gemini"
    | Except.error _ => mockQuiz topic
  else if detectProvider env = "openai" ∧ jsTruthy env.openaiKey = true then
    match up.openaiCreate (openaiQuizMessages topic goals now) with
    | Except.ok contentOpt => ChatResponse.mk (cleanQuizText (jsOr contentOpt "\x7b\x7d")) "openai"
    | Except.error _ => mockQuiz topic
  else mockQuiz topic

/-- `LLMProvider.generateSchedule`: same branch structure as `generateQuiz`
(no anthropic branch). -/
def generateSchedule (env : Env) (up : Upstream) (topic duration : String) (goals : Option String)
    (now : Nat) : ChatResponse :=
  if detectProvider env = "gemini" ∧ jsTruthy env.geminiKey = true then
    match up.geminiGenerate (geminiSchedulePrompt topic duration goals now) with
    | Except.ok text => ChatResponse.mk (cleanQuizText text) "gemini"
    | Except.error _ => mockSchedule topic duration
  else if detectProvider env = "openai" ∧ jsTruthy env.openaiKey = true then
    match up.openaiCreate (openaiScheduleMessages topic duration goals now) with
    | Except.ok contentOpt => ChatResponse.mk (cleanQuizText (jsOr contentOpt "\x7b\x7d")) "openai"
    | Except.error _ => mockSchedule topic duration
  else mockSchedule topic duration

/-! ### Project generator (`ProjectGenerator.ts`) -/

/-- The string-shaped fields of one file object as it comes back from
`JSON.parse` of the upstream text; each may be absent (`none`) since the
upstream JSON is unvalidated. -/
structure RawFile where
  path : Option String
  content : Option String
  language : Option String
deriving DecidableEq, Repr

/-- The shape `generateProject` reads off the parsed upstream JSON:
`name`/`files` are what validation checks, `description`/`instructions` are
forwarded untouched.  `files = none` covers both an absent field and a
non-array value (the two cases `!project.files || !Array.isArray(...)`
rejects together). -/
structure RawProject where
  name : Option String
  description : Option String
  files : Option (List RawFile)
  instructions : Option String
deriving DecidableEq, Repr

/-- A normalized project file. -/
structure ProjectFile where
  path : String
  content : String
  language : String
deriving DecidableEq, Repr

/-- The `GeneratedProject` result shape.  `description`/`instructions` stay
optional because the success path copies them from unvalidated JSON. -/
structure GeneratedProject where
  name : String
  description : Option String
  files : List ProjectFile
  instructions : Option String
deriving DecidableEq, Repr

/-- The fixed extension → language table of `ProjectGenerator.detectLanguage`. -/
def languageMap : List (String × String) :=
  [("html", "html"), ("css", "css"), ("js", "javascript"), ("ts", "typescript"),
   ("json", "json"), ("md", "markdown"), ("py", "python"), ("java", "java"),
   ("cpp", "cpp"), ("c", "c"), ("go", "go"), ("rs", "rust")]

/-- `filename.split(c)` on character lists (single-character separator),
agreeing with the JavaScript behavior on empty and edge inputs
(`"" ↦ [""]`, `"a." ↦ ["a",""]`). -/
def splitOnChar (c : Char) : List Char → List (List Char)
  | [] => [[]]
  | x :: rest =>
    let r := splitOnChar c rest
    if x = c then [] :: r
    else
      match r with
      | [] => [[x]]
      | h :: t => (x :: h) :: t

/-- `ProjectGenerator.detectLanguage`: last `"."`-separated component of the
filename (`split(".").pop()`), lowercased, looked up in the table,
defaulting to `"text"`. -/
def detectLanguage (filename : String) : String :=
  let ext := String.mk (((splitOnChar '.' filename.data).getLastD []).map Char.toLower)
  ((languageMap.find? (fun p => p.1 == ext)).map (fun p => p.2)).getD "text"

/-- The per-file normalization inside `generateProject`: default the path to
`"unnamed.txt"` and the content to `""`; keep a truthy upstream `language`
tag, otherwise infer it with `detectLanguage` on the ORIGINAL path — calling
it on an absent path is a thrown `TypeError` (`Except.error`), which the
outer catch turns into the fallback project. -/
def normalizeFile (f : RawFile) : Except Unit ProjectFile :=
  match (if jsTruthy f.language = true then Except.ok (f.language.getD "")
         else match f.path with
           | some p => Except.ok (detectLanguage p)
           | none => Except.error ()) with
  | Except.error e => Except.error e
  | Except.ok lang =>
    Except.ok (ProjectFile.mk (jsOr f.path "unnamed.txt") (jsOr f.content "") lang)

/-- `files.map(...)` with a callback that can throw: sequential, aborting at
the first thrown normalization. -/
def filesMapExcept : List RawFile → Except Unit (List ProjectFile)
  | [] => Except.ok []
  | f :: rest =>
    match normalizeFile f with
    | Except.error e => Except.error e
    | Except.ok pf =>
      match filesMapExcept rest with
      | Except.error e => Except.error e
      | Except.ok pfs => Except.ok (pf :: pfs)

/-- The instructional prompt `generateProject` builds around the user's
description. -/
def projectPrompt (description : String) : String :=
  "You are a project generator. Create a complete, working project based on this description:\n\n\"" ++
  description ++
  "\"\n\nGenerate a COMPLETE, production-ready project with all necessary files. Include:\n- All HTML, CSS, JavaScript files needed\n- Package configuration (package.json if applicable)\n- README with setup instructions\n- Any config files needed\n\nReturn ONLY valid JSON in this exact format (no markdown, no code blocks):\n\x7b\n  \"name\": \"project-name\",\n  \"description\": \"Brief project description\",\n  \"files\": [\n    \x7b\"path\": \"index.html\", \"content\": \"file content here\", \"language\": \"html\"\x7d,\n    \x7b\"path\": \"style.css\", \"content\": \"file content here\", \"language\": \"css\"\x7d,\n    \x7b\"path\": \"script.js\", \"content\": \"file content here\", \"language\": \"javascript\"\x7d\n  ],\n  \"instructions\": \"Step-by-step setup and run instructions\"\n\x7d\n\nIMPORTANT: \n1. Return ONLY the JSON object, no other text\n2. Include ALL file content, not placeholders\n3. Make the project actually work\n4. Use modern, clean code\n5. Include at least 3-5 files for a complete project"

/-- The two messages `generateProject` sends through the provider adapter. -/
def projectMessages (description : String) : List Message :=
  [Message.mk "system"
     "You are an expert project generator. You create complete, working projects with all necessary files. Always return valid JSON only.",
   Message.mk "user" (projectPrompt description)]

/-- The upstream text after `generateProject`'s trim-and-strip step: trim,
and if the text starts with a fence, globally delete the fence markers
(no re-trim afterwards, unlike the quiz/schedule paths). -/
def projectCleaned (env : Env) (up : Upstream) (description : String) : String :=
  let jsonContent := (chat env up (projectMessages description)).content.trim
  if jsonContent.startsWith "```" then removeAllNl "```" (removeAllNl "```json" jsonContent)
  else jsonContent

/-- `ProjectGenerator.getFallbackProject`: the fixed four-file scaffold
substituted whenever parsing, validation or normalization throws. -/
def getFallbackProject (description : String) : GeneratedProject :=
  GeneratedProject.mk "simple-project" (some description)
    [ProjectFile.mk "index.html"
       ("<!DOCTYPE html>\n<html lang=\"en\">\n<head>\n    <meta charset=\"UTF-8\">\n    <meta name=\"viewport\" content=\"width=device-width, initial-scale=1.0\">\n    <title>" ++
        description ++
        "</title>\n    <link rel=\"stylesheet\" href=\"style.css\">\n</head>\n<body>\n    <div class=\"container\">\n        <h1>Welcome to Your Project</h1>\n        <p>" ++
        description ++
        "</p>\n    </div>\n    <script src=\"script.js\"></script>\n</body>\n</html>")
       "html",
     ProjectFile.mk "style.css"
       "* \x7b\n    margin: 0;\n    padding: 0;\n    box-sizing: border-box;\n\x7d\n\nbody \x7b\n    font-family: -apple-system, BlinkMacSystemFont, \x27Segoe UI\x27, Roboto, Oxygen, Ubuntu, Cantarell, sans-serif;\n    line-height: 1.6;\n    background: linear-gradient(135deg, #667eea 0%, #764ba2 100%);\n    min-height: 100vh;\n    display: flex;\n    align-items: center;\n    justify-content: center;\n\x7d\n\n.container \x7b\n    background: white;\n    padding: 2rem;\n    border-radius: 10px;\n    box-shadow: 0 10px 30px rgba(0,0,0,0.2);\n    max-width: 600px;\n    text-align: center;\n\x7d\n\nh1 \x7b\n    color: #333;\n    margin-bottom: 1rem;\n\x7d\n\np \x7b\n    color: #666;\n\x7d"
       "css",
     ProjectFile.mk "script.js"
       "console.log(\x27Project loaded successfully!\x27);\n\ndocument.addEventListener(\x27DOMContentLoaded\x27, () => \x7b\n    console.log(\x27DOM ready\x27);\n\x7d);"
       "javascript",
     ProjectFile.mk "README.md"
       ("# " ++ description ++
        "\n\n## Setup\n\n1. Open \x60index.html\x60 in a web browser\n2. That\x27s it! The project is ready to use.\n\n## Files\n\n- \x60index.html\x60 - Main HTML file\n- \x60style.css\x60 - Styling\n- \x60script.js\x60 - JavaScript functionality\n\n## Features\n\nThis is a simple web project. Customize it to fit your needs!")
       "markdown"]
    (some "Simply open index.html in a web browser to view the project. No build step required!")

/-- `ProjectGenerator.generateProject`.  `parse` is the `JSON.parse` oracle
on the cleaned upstream text (`Except.error` = thrown `SyntaxError`, or a
JSON value outside the `RawProject` shape).  The whole body sits in one
`try/catch` whose catch returns the fallback scaffold, so the function is
total: it never propagates an exception. -/
def generateProject (env : Env) (up : Upstream) (parse : String → Except Unit RawProject)
    (description : String) : GeneratedProject :=
  match parse (projectCleaned env up description) with
  | Except.error _ => getFallbackProject description
  | Except.ok raw =>
    if jsTruthy raw.name = true ∧ raw.files ≠ none then
      match filesMapExcept (raw.files.getD []) with
      | Except.ok pfs => GeneratedProject.mk (raw.name.getD "") raw.description pfs raw.instructions
      | Except.error _ => getFallbackProject description
    else getFallbackProject description

/-! ### Unified message coordinator (`UnifiedAgentCoordinator`) -/

/-- The learning keyword set of `isLearningQuery`. -/
def learningKeywords : List String :=
  ["learn", "study", "quiz", "teach", "explain", "course", "lesson"]

/-- The booking keyword set of `isBookingQuery`. -/
def bookingKeywords : List String :=
  ["book", "reserve", "hotel", "flight", "restaurant", "travel"]

/-- The code keyword set of `isCodeQuery`. -/
def codeKeywords : List String :=
  ["code", "program", "debug", "function", "syntax", "error", "bug"]

/-- The project-generation phrasings of `isProjectGenerationQuery`. -/
def projectKeywords : List String :=
  ["create a project", "build a project", "generate a project", "make a project",
   "create project", "build project"]

/-- `isLearningQuery`: some learning keyword occurs in the lowercased message. -/
def isLearningQuery (message : String) : Bool :=
  learningKeywords.any (fun kw => jsIncludes (strToLower message) kw)

/-- `isBookingQuery`. -/
def isBookingQuery (message : String) : Bool :=
  bookingKeywords.any (fun kw => jsIncludes (strToLower message) kw)

/-- `isCodeQuery`. -/
def isCodeQuery (message : String) : Bool :=
  codeKeywords.any (fun kw => jsIncludes (strToLower message) kw)

/-- `isProjectGenerationQuery`. -/
def isProjectGenerationQuery (message : String) : Bool :=
  projectKeywords.any (fun kw => jsIncludes (strToLower message) kw)

/-- The `handleMessage` result shape (`projectId`/`projectData` only set on
the project-generation branch). -/
structure CoordinatorResult where
  response : String
  agentsUsed : List String
  projectId : Option String
  projectData : Option GeneratedProject
deriving DecidableEq, Repr

/-- JavaScript template interpolation of a possibly-`undefined` value. -/
def jsInterp (o : Option String) : String :=
  o.getD "undefined"

/-- The system prompt `handleMessage` builds for the non-project branch. -/
def coordinatorSystemPrompt (agentsUsed : List String) (specialization : String) : String :=
  "You are an intelligent AI assistant coordinating specialized capabilities: " ++
  String.intercalate ", " agentsUsed ++ ".\n\n" ++ specialization ++
  "\n\nCRITICAL INSTRUCTIONS:\n1. Answer ALL questions directly and concisely\n2. Keep responses under 120 words\n3. Use proper formatting with these sections:\n   - **Summary** (1-2 sentences)\n   - **Key Points** (bulleted list, 3 items max)\n   - **Recommended Action** (only when relevant)\n4. Omit verbose explanations and internal reasoning\n5. Focus only on essential information\n\nYour goal is to provide clear, focused answers that deliver maximum value with minimal words."

/-- The formatted summary returned on the project-generation branch. -/
def projectResponseText (project : GeneratedProject) : String :=
  "**Project Generated: " ++ project.name ++ "**\n\n" ++ jsInterp project.description ++
  "\n\nI\x27ve created a complete project with the following files:\n" ++
  String.intercalate "\n" (project.files.map (fun f => "- " ++ f.path)) ++
  "\n\nYou can download this project as a zip file using the download button."

/-- `UnifiedAgentCoordinator.handleMessage` (`now` is `Date.now()`).  The
source wraps `generateProject` in a `try/catch`, but `generateProject`
catches every throw itself and so never raises; the coordinator's catch
branch is therefore unreachable and the project branch always returns the
id/data pair. -/
def handleMessage (env : Env) (up : Upstream) (parse : String → Except Unit RawProject)
    (now : Nat) (message : String) : CoordinatorResult :=
  if isProjectGenerationQuery message = true then
    let project := generateProject env up parse message
    let projectId := "proj-" ++ toString now
    CoordinatorResult.mk (projectResponseText project) ["Project Generator"]
      (some projectId) (some project)
  else
    let baseAgents : List String :=
      (if isLearningQuery message = true then ["Learning Assistant"] else []) ++
      (if isBookingQuery message = true then ["Booking Navigator"] else []) ++
      (if isCodeQuery message = true then ["Code Helper"] else [])
    let baseSpec : String :=
      (if isLearningQuery message = true then
         "You excel at educational content, breaking down complex topics, creating study plans, and generating quiz questions. "
       else "") ++
      (if isBookingQuery message = true then
         "You specialize in travel and booking assistance, helping users find flights, hotels, restaurants, and events. "
       else "") ++
      (if isCodeQuery message = true then
         "You are expert at programming, debugging, explaining code concepts, and providing code examples. "
       else "")
    let agentsUsed := if baseAgents.isEmpty then ["General Assistant"] else baseAgents
    let specialization :=
      if baseAgents.isEmpty then
        "You are a knowledgeable general assistant capable of answering any question. "
      else baseSpec
    let messages :=
      [Message.mk "system" (coordinatorSystemPrompt agentsUsed specialization),
       Message.mk "user" message]
    let resp := chat env up messages
    CoordinatorResult.mk resp.content agentsUsed none none

/-! ### Simple agent manager (`AgentManager` class) -/

/-- The agent record of the simple `AgentManager` (creation date omitted:
nothing reads it). -/
structure MgrAgent where
  id : String
  name : String
  description : String
deriving DecidableEq, Repr

/-- Lookup in the manager's id → agent map (`Map.get`). -/
def mgrFind : List (String × MgrAgent) → String → Option MgrAgent
  | [], _ => none
  | (k, v) :: rest, i => if k = i then some v else mgrFind rest i

/-- `AgentManager.executeTask`: throws (`Except.error`) for an unknown id,
otherwise returns the formatted string; the agent map is returned unchanged
(the method never writes it). -/
def executeTask (agents : List (String × MgrAgent)) (agentId task : String) :
    Except String (String × List (String × MgrAgent)) :=
  match mgrFind agents agentId with
  | none => Except.error ("Agent " ++ agentId ++ " not found")
  | some a => Except.ok ("Agent " ++ a.name ++ " executed task: " ++ task, agents)

/-- `AgentManager.chatWithAgent`: same structure as `executeTask`. -/
def chatWithAgent (agents : List (String × MgrAgent)) (agentId message : String) :
    Except String (String × List (String × MgrAgent)) :=
  match mgrFind agents agentId with
  | none => Except.error ("Agent " ++ agentId ++ " not found")
  | some a => Except.ok ("Agent " ++ a.name ++ " response to: " ++ message, agents)

/-! ### Agent executor (`AgentExecutor`) and its store -/

/-- An executor-side agent record (`shared/schema`): status plus the two
counters the executor maintains. -/
structure Agent where
  id : String
  name : String
  description : String
  templateId : String
  status : String
  tasksCompleted : Nat
  successRate : Nat
deriving DecidableEq, Repr

/-- The `{success, message, data?}` result every executor branch returns. -/
structure AgentExecutionResult where
  success : Bool
  message : String
  data : Option String
deriving DecidableEq, Repr

/-- One execution log entry. -/
structure ExecutionLogEntry where
  agentId : String
  status : String
  message : String
  result : Option String
deriving DecidableEq, Repr

/-- Modelled from the spec: the Agent Store state — `storage.ts` is not
among the provided sources; per the spec it is "a persisted collection of
agent records ... with simple create/read/update/delete operations" plus an
append-only execution log. -/
structure StoreState where
  agents : List (String × Agent)
  logs : List ExecutionLogEntry
deriving DecidableEq, Repr

/-- First match in the id → agent collection. -/
def storeFind : List (String × Agent) → String → Option Agent
  | [], _ => none
  | (k, v) :: rest, i => if k = i then some v else storeFind rest i

/-- Update every record under the given id (ids are unique keys). -/
def storeUpdate (f : Agent → Agent) : List (String × Agent) → String → List (String × Agent)
  | [], _ => []
  | (k, v) :: rest, i =>
    if k = i then (k, f v) :: storeUpdate f rest i else (k, v) :: storeUpdate f rest i

/-- Modelled from the spec: `storage.getAgent`. -/
def getAgent (s : StoreState) (agentId : String) : Option Agent :=
  storeFind s.agents agentId

/-- Modelled from the spec: `storage.updateAgentStatus` (the optional
timestamp argument carries no further state and is omitted). -/
def updateAgentStatus (s : StoreState) (agentId status : String) : StoreState :=
  StoreState.mk (storeUpdate (fun a => { a with status := status }) s.agents agentId) s.logs

/-- Modelled from the spec: `storage.updateAgentMetrics` sets the two
counters of one agent. -/
def updateAgentMetrics (s : StoreState) (agentId : String) (tasksCompleted successRate : Nat) :
    StoreState :=
  StoreState.mk
    (storeUpdate (fun a => { a with tasksCompleted := tasksCompleted, successRate := successRate })
      s.agents agentId)
    s.logs

/-- Modelled from the spec: `storage.createAgentExecutionLog` appends one
entry. -/
def createAgentExecutionLog (s : StoreState) (e : ExecutionLogEntry) : StoreState :=
  StoreState.mk s.agents (s.logs ++ [e])

/-- `AgentExecutor.executeAgent`.  The `switch` on the template id and the
six action methods perform external I/O (email service, weather/news HTTP,
LLM); all their branches converge on an `AgentExecutionResult`, so their
combined behavior is the `dispatch` oracle, whose `Except.error` case models
an exception thrown inside the `try` block (e.g. a rejected storage or SDK
promise), handled by the outer catch.  Note the catch path updates status
and appends a log entry but performs no `updateAgentMetrics` call. -/
def executeAgent {α : Type} (dispatch : Agent → α → Except String AgentExecutionResult)
    (s : StoreState) (agentId : String) (params : α) : AgentExecutionResult × StoreState :=
  match getAgent s agentId with
  | none => (AgentExecutionResult.mk false "Agent not found" none, s)
  | some agent =>
    let s1 := updateAgentStatus s agentId "executing"
    match dispatch agent params with
    | Except.ok result =>
      let newTasksCompleted := agent.tasksCompleted + 1
      let newSuccessRate :=
        if result.success then
          jsRound (agent.successRate * agent.tasksCompleted + 100) newTasksCompleted
        else
          jsRound (agent.successRate * agent.tasksCompleted) newTasksCompleted
      let s2 := updateAgentMetrics s1 agentId newTasksCompleted newSuccessRate
      let s3 := updateAgentStatus s2 agentId (if result.success then "idle" else "error")
      let s4 := createAgentExecutionLog s3
        (ExecutionLogEntry.mk agentId (if result.success then "success" else "error")
          result.message result.data)
      (result, s4)
    | Except.error e =>
      let s2 := updateAgentStatus s1 agentId "error"
      let s3 := createAgentExecutionLog s2 (ExecutionLogEntry.mk agentId "error" e none)
      (AgentExecutionResult.mk false e none, s3)

/-! ### Concrete fixtures used by witnesses and counterexamples -/

/-- No credentials configured (demo mode). -/
def envNone : Env := Env.mk none none none

/-- Only `GEMINI_API_KEY` configured. -/
def envGemini : Env := Env.mk (some "gkey") none none

/-- Only `ANTHROPIC_API_KEY` configured. -/
def envAnthropicOnly : Env := Env.mk none none (some "akey")

/-- An upstream where every SDK call succeeds with fixed text. -/
def upstreamOk : Upstream :=
  Upstream.mk (fun _ _ => Except.ok "gemini chat text")
    (fun _ => Except.ok "gemini generated text")
    (fun _ => Except.ok (some "openai text"))
    (fun _ _ => Except.ok (some "anthropic text"))

/-- A `JSON.parse` oracle that always throws. -/
def failParse : String → Except Unit RawProject := fun _ => Except.error ()

/-- A parse oracle returning one well-formed file whose upstream language tag
(`"python"`) disagrees with its extension (`.html`). -/
def langParse : String → Except Unit RawProject :=
  fun _ => Except.ok (RawProject.mk (some "proj") (some "desc")
    (some [RawFile.mk (some "index.html") (some "<h1>hi</h1>") (some "python")]) (some "run"))

/-- A demo executor agent with 3 completed tasks at 67% success. -/
def demoAgent : Agent := Agent.mk "a1" "Demo" "demo agent" "social-monitor" "idle" 3 67

/-- A store holding just `demoAgent`. -/
def demoStore : StoreState := StoreState.mk [("a1", demoAgent)] []

/-- A dispatch whose action reports structured success. -/
def okDispatch : Agent → Unit → Except String AgentExecutionResult :=
  fun _ _ => Except.ok (AgentExecutionResult.mk true "ok" none)

/-- A dispatch that throws (a rejected promise inside the `try` block). -/
def failDispatch : Agent → Unit → Except String AgentExecutionResult :=
  fun _ _ => Except.error "boom"

/-- The seeded learning-assistant record of the simple manager. -/
def demoMgrAgents : List (String × MgrAgent) :=
  [("learning-assistant",
    MgrAgent.mk "learning-assistant" "Learning Assistant"
      "Helps with study plans, quizzes, and learning goals")]

/-! ### Helper lemmas -/

theorem storeFind_storeUpdate (f : Agent → Agent) (l : List (String × Agent)) (i : String) :
    storeFind (storeUpdate f l i) i = (storeFind l i).map f := by
  induction l with
  | nil => rfl
  | cons p rest ih =>
    obtain ⟨k, v⟩ := p
    by_cases h : k = i <;> simp [storeUpdate, storeFind, h, ih]

theorem filesMapExcept_mem (raws : List RawFile) (pfs : List ProjectFile)
    (h : filesMapExcept raws = Except.ok pfs) :
    ∀ pf ∈ pfs, ∃ rf, normalizeFile rf = Except.ok pf := by
  induction raws generalizing pfs with
  | nil =>
    simp only [filesMapExcept] at h
    cases h
    simp
  | cons f rest ih =>
    simp only [filesMapExcept] at h
    cases hn : normalizeFile f with
    | error e => rw [hn] at h; cases h
    | ok pf1 =>
      rw [hn] at h
      cases hr : filesMapExcept rest with
      | error e => rw [hr] at h; cases h
      | ok pfs1 =>
        rw [hr] at h
        cases h
        intro pf hmem
        rcases List.mem_cons.mp hmem with hpf | hpf
        · exact ⟨f, by rw [hn, hpf]⟩
        · exact ih pfs1 hr pf hpf

theorem detectProvider_eq_gemini (env : Env) :
    detectProvider env = "gemini" ↔ jsTruthy env.geminiKey = true := by
  unfold detectProvider
  split_ifs with h1 h2 h3 <;> simp_all

theorem detectProvider_eq_openai (env : Env) :
    detectProvider env = "openai" ↔
      (jsTruthy env.geminiKey = false ∧ jsTruthy env.openaiKey = true) := by
  unfold detectProvider
  split_ifs with h1 h2 h3 <;> simp_all

theorem detectProvider_eq_anthropic (env : Env) :
    detectProvider env = "anthropic" ↔
      (jsTruthy env.geminiKey = false ∧ jsTruthy env.openaiKey = false ∧
       jsTruthy env.anthropicKey = true) := by
  unfold detectProvider
  split_ifs with h1 h2 h3 <;> simp_all

/-! ### Claim theorems -/

/-- C1 (amended): for an agent present in the store, an `executeAgent` call
whose dispatch RETURNS a result (structured success or failure) bumps
`tasksCompleted` by exactly one and recomputes `successRate` as
`round((oldRate*oldCount + (success ? 100 : 0)) / newCount)`, while a
dispatch EXCEPTION caught at the outer boundary leaves both counters
unchanged and only sets the status to `"error"` (the catch path performs no
metrics update). -/
theorem executeAgent_counters {α : Type}
    (dispatch : Agent → α → Except String AgentExecutionResult)
    (s : StoreState) (agentId : String) (params : α) (agent : Agent)
    (hA : getAgent s agentId = some agent) :
    (∀ res, dispatch agent params = Except.ok res →
       getAgent (executeAgent dispatch s agentId params).2 agentId =
         some { agent with
                status := if res.success then "idle" else "error",
                tasksCompleted := agent.tasksCompleted + 1,
                successRate :=
                  jsRound
                    (agent.successRate * agent.tasksCompleted + (if res.success then 100 else 0))
                    (agent.tasksCompleted + 1) }) ∧
    (∀ e, dispatch agent params = Except.error e →
       getAgent (executeAgent dispatch s agentId params).2 agentId =
         some { agent with status := "error" }) := by
  have hA' : storeFind s.agents agentId = some agent := hA
  constructor
  · intro res hres
    obtain ⟨succ, msg, data⟩ := res
    cases succ <;>
      simp [executeAgent, getAgent, hA, hA', hres, updateAgentMetrics, updateAgentStatus,
        createAgentExecutionLog, storeFind_storeUpdate]
  · intro e hres
    simp [executeAgent, getAgent, hA, hA', hres, updateAgentMetrics, updateAgentStatus,
      createAgentExecutionLog, storeFind_storeUpdate]

/-- C1 witness: a successful run on the demo agent (3 tasks at 67%) moves it
to 4 tasks at `round((67*3+100)/4) = 75`, status `"idle"`. -/
theorem executeAgent_counters_witness :
    getAgent (executeAgent okDispatch demoStore "a1" ()).2 "a1" =
      some { demoAgent with status := "idle", tasksCompleted := 4, successRate := 75 } := by
  have h := (executeAgent_counters okDispatch demoStore "a1" () demoAgent rfl).1
    (AgentExecutionResult.mk true "ok" none) rfl
  simpa [demoAgent, jsRound] using h

/-- C1 counterexample: when the dispatch throws (outer catch path), the
demo agent's `tasksCompleted` stays 3 — it does not increase to 4 as the
claim requires of "whatever the outcome". -/
theorem executeAgent_counters_counterexample :
    (getAgent (executeAgent failDispatch demoStore "a1" ()).2 "a1").map Agent.tasksCompleted =
      some 3 ∧
    (getAgent (executeAgent failDispatch demoStore "a1" ()).2 "a1").map Agent.successRate =
      some 67 ∧
    (3 : Nat) ≠ 3 + 1 := by
  refine ⟨rfl, rfl, by decide⟩

/-- C2 (confirmed): for an agent id not present in the store, `executeAgent`
returns a structured `success = false` result without throwing and the store
— in particular every agent's counters — is left untouched. -/
theorem executeAgent_unknown_agent {α : Type}
    (dispatch : Agent → α → Except String AgentExecutionResult)
    (s : StoreState) (agentId : String) (params : α)
    (h : getAgent s agentId = none) :
    executeAgent dispatch s agentId params =
      (AgentExecutionResult.mk false "Agent not found" none, s) := by
  have h' : storeFind s.agents agentId = none := h
  simp [executeAgent, getAgent, h, h']

/-- C2 witness: the unknown id `"ghost"` on the demo store. -/
theorem executeAgent_unknown_agent_witness :
    executeAgent okDispatch demoStore "ghost" () =
      (AgentExecutionResult.mk false "Agent not found" none, demoStore) :=
  executeAgent_unknown_agent okDispatch demoStore "ghost" () rfl

/-- C10 (confirmed): the simple manager's `executeTask`/`chatWithAgent`
throw exactly when the id is absent from the agent map; on a present id they
return the formatted string with the map unchanged — unlike
`AgentExecutor.executeAgent`, whose unknown-agent case is a structured
non-throwing failure. -/
theorem manager_throws_iff_unknown (agents : List (String × MgrAgent))
    (agentId task msg : String) :
    (mgrFind agents agentId = none →
       executeTask agents agentId task = Except.error ("Agent " ++ agentId ++ " not found") ∧
       chatWithAgent agents agentId msg = Except.error ("Agent " ++ agentId ++ " not found")) ∧
    (∀ a, mgrFind agents agentId = some a →
       executeTask agents agentId task =
         Except.ok ("Agent " ++ a.name ++ " executed task: " ++ task, agents) ∧
       chatWithAgent agents agentId msg =
         Except.ok ("Agent " ++ a.name ++ " response to: " ++ msg, agents)) ∧
    (∀ {α : Type} (dispatch : Agent → α → Except String AgentExecutionResult)
       (s : StoreState) (params : α), getAgent s agentId = none →
       executeAgent dispatch s agentId params =
         (AgentExecutionResult.mk false "Agent not found" none, s)) := by
  refine ⟨?_, ?_, ?_⟩
  · intro h
    exact ⟨by simp [executeTask, h], by simp [chatWithAgent, h]⟩
  · intro a h
    exact ⟨by simp [executeTask, h], by simp [chatWithAgent, h]⟩
  · intro α dispatch s params h
    have h' : storeFind s.agents agentId = none := h
    simp [executeAgent, getAgent, h, h']

/-- C10 witness: an unknown id throws, the seeded learning assistant
returns the formatted string and the unchanged map. -/
theorem manager_throws_iff_unknown_witness :
    executeTask demoMgrAgents "ghost" "sum 2+2" =
      Except.error "Agent ghost not found" ∧
    executeTask demoMgrAgents "learning-assistant" "sum 2+2" =
      Except.ok ("Agent Learning Assistant executed task: sum 2+2", demoMgrAgents) ∧
    chatWithAgent demoMgrAgents "learning-assistant" "hi" =
      Except.ok ("Agent Learning Assistant response to: hi", demoMgrAgents) := by
  have h1 := (manager_throws_iff_unknown demoMgrAgents "ghost" "sum 2+2" "hi").1 rfl
  have h2 := (manager_throws_iff_unknown demoMgrAgents "learning-assistant" "sum 2+2" "hi").2.1
    (MgrAgent.mk "learning-assistant" "Learning Assistant"
      "Helps with study plans, quizzes, and learning goals") rfl
  exact ⟨h1.1, h2.1, h2.2⟩

/-- C3 (amended): when the selected provider is gemini or openai,
`generateQuiz` and `generateSchedule` call that upstream provider and return
its fence-stripped text tagged with the provider's name, degrading to the
canned single-item mock payload exactly on upstream failure; when the
selected provider is anthropic, however, both calls skip the upstream
entirely and return the mock payload (the source has no anthropic branch for
quiz/schedule generation). -/
theorem generate_calls_provider (env : Env) (up : Upstream) (topic duration : String)
    (goals : Option String) (now : Nat) :
    (detectProvider env = "gemini" →
       (∀ text, up.geminiGenerate (geminiQuizPrompt topic goals now) = Except.ok text →
          generateQuiz env up topic goals now = ChatResponse.mk (cleanQuizText text) "gemini") ∧
       (up.geminiGenerate (geminiQuizPrompt topic goals now) = Except.error () →
          generateQuiz env up topic goals now = mockQuiz topic) ∧
       (∀ text, up.geminiGenerate (geminiSchedulePrompt topic duration goals now) =
            Except.ok text →
          generateSchedule env up topic duration goals now =
            ChatResponse.mk (cleanQuizText text) "gemini") ∧
       (up.geminiGenerate (geminiSchedulePrompt topic duration goals now) = Except.error () →
          generateSchedule env up topic duration goals now = mockSchedule topic duration)) ∧
    (detectProvider env = "openai" →
       (∀ c, up.openaiCreate (openaiQuizMessages topic goals now) = Except.ok c →
          generateQuiz env up topic goals now =
            ChatResponse.mk (cleanQuizText (jsOr c "\x7b\x7d")) "openai") ∧
       (up.openaiCreate (openaiQuizMessages topic goals now) = Except.error () →
          generateQuiz env up topic goals now = mockQuiz topic) ∧
       (∀ c, up.openaiCreate (openaiScheduleMessages topic duration goals now) = Except.ok c →
          generateSchedule env up topic duration goals now =
            ChatResponse.mk (cleanQuizText (jsOr c "\x7b\x7d")) "openai") ∧
       (up.openaiCreate (openaiScheduleMessages topic duration goals now) = Except.error () →
          generateSchedule env up topic duration goals now = mockSchedule topic duration)) ∧
    (detectProvider env = "anthropic" →
       generateQuiz env up topic goals now = mockQuiz topic ∧
       generateSchedule env up topic duration goals now = mockSchedule topic duration) := by
  refine ⟨?_, ?_, ?_⟩
  · intro hd
    have hg : jsTruthy env.geminiKey = true := (detectProvider_eq_gemini env).mp hd
    refine ⟨?_, ?_, ?_, ?_⟩ <;> intros <;>
      simp_all [generateQuiz, generateSchedule]
  · intro hd
    obtain ⟨hg, ho⟩ := (detectProvider_eq_openai env).mp hd
    refine ⟨?_, ?_, ?_, ?_⟩ <;> intros <;>
      simp_all [generateQuiz, generateSchedule]
  · intro hd
    obtain ⟨hg, ho, _⟩ := (detectProvider_eq_anthropic env).mp hd
    constructor <;> simp [generateQuiz, generateSchedule, hd, hg, ho]

/-- C3 witness: with only `GEMINI_API_KEY` configured and a succeeding
upstream, `generateQuiz` returns the fence-stripped gemini text. -/
theorem generate_calls_provider_witness :
    generateQuiz envGemini upstreamOk "algebra" none 0 =
      ChatResponse.mk (cleanQuizText "gemini generated text") "gemini" :=
  ((generate_calls_provider envGemini upstreamOk "algebra" "7 days" none 0).1 rfl).1
    "gemini generated text" rfl

/-- C3 counterexample: with only `ANTHROPIC_API_KEY` configured (provider
`"anthropic"`) and every upstream call succeeding, `generateQuiz` and
`generateSchedule` still return `provider = "mock"` — the selected upstream
is never asked, contradicting the claim for the anthropic case. -/
theorem generate_anthropic_counterexample :
    detectProvider envAnthropicOnly = "anthropic" ∧
    (generateQuiz envAnthropicOnly upstreamOk "algebra" none 0).provider = "mock" ∧
    (generateSchedule envAnthropicOnly upstreamOk "algebra" "7 days" none 0).provider = "mock" ∧
    ("mock" : String) ≠ "anthropic" := by
  exact ⟨rfl, rfl, rfl, by decide⟩

/-- C6 (confirmed): with no provider credential configured, `chat`,
`generateQuiz` and `generateSchedule` all return the canned mock responses
tagged `provider = "mock"`; each is a total function of its oracles (every
upstream throw is caught), so no call throws. -/
theorem no_credentials_mock (env : Env) (up : Upstream) (messages : List Message)
    (topic duration : String) (goals : Option String) (now : Nat)
    (h1 : jsTruthy env.geminiKey = false) (h2 : jsTruthy env.openaiKey = false)
    (h3 : jsTruthy env.anthropicKey = false) :
    detectProvider env = "mock" ∧
    chat env up messages = mockChat messages ∧
    (chat env up messages).provider = "mock" ∧
    generateQuiz env up topic goals now = mockQuiz topic ∧
    (generateQuiz env up topic goals now).provider = "mock" ∧
    generateSchedule env up topic duration goals now = mockSchedule topic duration ∧
    (generateSchedule env up topic duration goals now).provider = "mock" := by
  have hd : detectProvider env = "mock" := by simp [detectProvider, h1, h2, h3]
  refine ⟨hd, ?_, ?_, ?_, ?_, ?_, ?_⟩ <;>
    simp [chat, generateQuiz, generateSchedule, h1, h2, h3, mockChat, mockQuiz, mockSchedule]

/-- C6 witness: the empty environment at concrete inputs. -/
theorem no_credentials_mock_witness :
    (chat envNone upstreamOk [Message.mk "user" "hello"]).provider = "mock" ∧
    (generateQuiz envNone upstreamOk "algebra" none 0).provider = "mock" ∧
    (generateSchedule envNone upstreamOk "algebra" "7 days" none 0).provider = "mock" := by
  have h := no_credentials_mock envNone upstreamOk [Message.mk "user" "hello"]
    "algebra" "7 days" none 0 rfl rfl rfl
  exact ⟨h.2.2.1, h.2.2.2.2.1, h.2.2.2.2.2.2⟩

/-- C7 (confirmed): `generateProject` is a total function of its oracles —
every throw inside its body (parse error, failed validation, throwing file
normalization) is caught and answered with the fixed fallback scaffold, so
no input description makes it throw; and the fallback scaffold has exactly
the 4 files `index.html`, `style.css`, `script.js`, `README.md`. -/
theorem generateProject_total_fallback (env : Env) (up : Upstream)
    (parse : String → Except Unit RawProject) (description : String) :
    (parse (projectCleaned env up description) = Except.error () →
       generateProject env up parse description = getFallbackProject description) ∧
    (∀ raw, parse (projectCleaned env up description) = Except.ok raw →
       ¬(jsTruthy raw.name = true ∧ raw.files ≠ none) →
       generateProject env up parse description = getFallbackProject description) ∧
    (∀ raw, parse (projectCleaned env up description) = Except.ok raw →
       filesMapExcept (raw.files.getD []) = Except.error () →
       generateProject env up parse description = getFallbackProject description) ∧
    (getFallbackProject description).files.map ProjectFile.path =
      ["index.html", "style.css", "script.js", "README.md"] ∧
    (getFallbackProject description).files.length = 4 := by
  refine ⟨?_, ?_, ?_, rfl, rfl⟩
  · intro h
    simp [generateProject, h]
  · intro raw h hval
    simp [generateProject, h, hval]
  · intro raw h herr
    by_cases hval : jsTruthy raw.name = true ∧ raw.files ≠ none
    · simp [generateProject, h, hval, herr]
    · simp [generateProject, h, hval]

/-- C7 witness: a parse oracle that always throws yields the fallback. -/
theorem generateProject_total_fallback_witness :
    generateProject envNone upstreamOk failParse "demo app" =
      getFallbackProject "demo app" :=
  (generateProject_total_fallback envNone upstreamOk failParse "demo app").1 rfl

/-- C8 (amended): a file's language tag is the extension-table inference
only when the upstream supplied no truthy `language` field; a truthy
upstream tag is kept verbatim (even when it disagrees with the extension).
Fallback files carry tags consistent with the table, and every file
`generateProject` returns arises from one of those two sources. -/
theorem file_language_inference (env : Env) (up : Upstream)
    (parse : String → Except Unit RawProject) (description : String) :
    (∀ rf pf, normalizeFile rf = Except.ok pf →
       (jsTruthy rf.language = true → pf.language = rf.language.getD "") ∧
       (jsTruthy rf.language = false →
          ∃ p, rf.path = some p ∧ pf.language = detectLanguage p)) ∧
    (∀ pf ∈ (getFallbackProject description).files, pf.language = detectLanguage pf.path) ∧
    (∀ pf ∈ (generateProject env up parse description).files,
       (∃ rf, normalizeFile rf = Except.ok pf) ∨
       pf ∈ (getFallbackProject description).files) := by
  refine ⟨?_, ?_, ?_⟩
  · intro rf pf h
    by_cases hl : jsTruthy rf.language = true
    · simp only [normalizeFile, hl, if_true] at h
      cases h
      refine ⟨fun _ => rfl, fun hfalse => ?_⟩
      rw [hl] at hfalse
      simp at hfalse
    · have hl' : jsTruthy rf.language = false := by
        cases hx : jsTruthy rf.language
        · rfl
        · exact absurd hx hl
      cases hp : rf.path with
      | none => simp [normalizeFile, hl', hp] at h
      | some p =>
        simp only [normalizeFile, hl', hp, Bool.false_eq_true, if_false] at h
        cases h
        refine ⟨fun htrue => ?_, fun _ => ⟨p, rfl, rfl⟩⟩
        rw [hl'] at htrue
        simp at htrue
  · intro pf hmem
    simp only [getFallbackProject, List.mem_cons, List.not_mem_nil, or_false] at hmem
    rcases hmem with rfl | rfl | rfl | rfl <;> rfl
  · intro pf hmem
    cases hc : parse (projectCleaned env up description) with
    | error e =>
      right
      simpa [generateProject, hc] using hmem
    | ok raw =>
      by_cases hval : jsTruthy raw.name = true ∧ raw.files ≠ none
      · cases hfs : filesMapExcept (raw.files.getD []) with
        | error e =>
          right
          simpa [generateProject, hc, hval, hfs] using hmem
        | ok pfs =>
          left
          have hmem' : pf ∈ pfs := by
            simpa [generateProject, hc, hval, hfs] using hmem
          exact filesMapExcept_mem (raw.files.getD []) pfs hfs pf hmem'
      · right
        simpa [generateProject, hc, hval] using hmem

/-- C8 witness: a file arriving with no language tag and path `a.py` is
tagged by the extension table. -/
theorem file_language_inference_witness :
    (ProjectFile.mk "a.py" "x" "python").language = detectLanguage "a.py" := by
  obtain ⟨p, hp, hl⟩ := ((file_language_inference envNone upstreamOk failParse "d").1
    (RawFile.mk (some "a.py") (some "x") none) (ProjectFile.mk "a.py" "x" "python") rfl).2 rfl
  injection hp with h
  subst h
  exact hl

/-- C8 counterexample: the upstream supplies `index.html` tagged
`"python"`; `generateProject` keeps the upstream tag, which differs from
the table's inference `"html"` — so not every returned file's tag is
inferred from its extension. -/
theorem file_language_counterexample :
    (generateProject envNone upstreamOk langParse "demo").files.map ProjectFile.language =
      ["python"] ∧
    detectLanguage "index.html" = "html" ∧
    ("python" : String) ≠ "html" := by
  exact ⟨rfl, rfl, by decide⟩

/-- C4 (confirmed): for every message matching one of the fixed
project-generation phrasings, `handleMessage` answers from the project
branch: `agentsUsed` is exactly `["Project Generator"]` (hence non-empty and
containing it) and the result carries both a `projectId` and the generated
`projectData`.  (`generateProject` never throws, so the branch's catch is
unreachable.) -/
theorem handleMessage_project_branch (env : Env) (up : Upstream)
    (parse : String → Except Unit RawProject) (now : Nat) (message : String)
    (h : isProjectGenerationQuery message = true) :
    (handleMessage env up parse now message).agentsUsed = ["Project Generator"] ∧
    (handleMessage env up parse now message).agentsUsed ≠ [] ∧
    "Project Generator" ∈ (handleMessage env up parse now message).agentsUsed ∧
    (handleMessage env up parse now message).projectId = some ("proj-" ++ toString now) ∧
    (handleMessage env up parse now message).projectData =
      some (generateProject env up parse message) := by
  refine ⟨?_, ?_, ?_, ?_, ?_⟩ <;> simp [handleMessage, h]

/-- C4 witness: a concrete "create a project …" message. -/
theorem handleMessage_project_branch_witness :
    (handleMessage envNone upstreamOk failParse 17
       "create a project that tracks habits").projectId = some "proj-17" ∧
    (handleMessage envNone upstreamOk failParse 17
       "create a project that tracks habits").projectData =
      some (generateProject envNone upstreamOk failParse
        "create a project that tracks habits") := by
  have h := handleMessage_project_branch envNone upstreamOk failParse 17
    "create a project that tracks habits" rfl
  exact ⟨h.2.2.2.1, h.2.2.2.2⟩

/-- C5 (confirmed): on the non-project branch the three keyword sets are
tested independently — each specialist appears in `agentsUsed` exactly when
its own predicate matches, so any, all, or none can fire together; in
particular "teach me about flights to book a hotel" matches both the
learning and booking sets and yields both assistants in `agentsUsed`. -/
theorem handleMessage_nonexclusive (env : Env) (up : Upstream)
    (parse : String → Except Unit RawProject) (now : Nat) (message : String)
    (h : isProjectGenerationQuery message = false) :
    ("Learning Assistant" ∈ (handleMessage env up parse now message).agentsUsed ↔
       isLearningQuery message = true) ∧
    ("Booking Navigator" ∈ (handleMessage env up parse now message).agentsUsed ↔
       isBookingQuery message = true) ∧
    ("Code Helper" ∈ (handleMessage env up parse now message).agentsUsed ↔
       isCodeQuery message = true) ∧
    isLearningQuery "teach me about flights to book a hotel" = true ∧
    isBookingQuery "teach me about flights to book a hotel" = true ∧
    "Learning Assistant" ∈
      (handleMessage env up parse now "teach me about flights to book a hotel").agentsUsed ∧
    "Booking Navigator" ∈
      (handleMessage env up parse now "teach me about flights to book a hotel").agentsUsed := by
  have key : ∀ msg, isProjectGenerationQuery msg = false →
      (("Learning Assistant" ∈ (handleMessage env up parse now msg).agentsUsed ↔
          isLearningQuery msg = true) ∧
       ("Booking Navigator" ∈ (handleMessage env up parse now msg).agentsUsed ↔
          isBookingQuery msg = true) ∧
       ("Code Helper" ∈ (handleMessage env up parse now msg).agentsUsed ↔
          isCodeQuery msg = true)) := by
    intro msg hm
    cases hL : isLearningQuery msg <;> cases hB : isBookingQuery msg <;>
      cases hC : isCodeQuery msg <;>
      refine ⟨?_, ?_, ?_⟩ <;> simp [handleMessage, hm, hL, hB, hC]
  obtain ⟨k1, k2, k3⟩ := key message h
  have hL : isLearningQuery "teach me about flights to book a hotel" = true := rfl
  have hB : isBookingQuery "teach me about flights to book a hotel" = true := rfl
  obtain ⟨m1, m2, _⟩ := key "teach me about flights to book a hotel" rfl
  exact ⟨k1, k2, k3, hL, hB, m1.mpr hL, m2.mpr hB⟩

/-- C5 witness: the example message at concrete oracles. -/
theorem handleMessage_nonexclusive_witness :
    "Learning Assistant" ∈
      (handleMessage envNone upstreamOk failParse 0
        "teach me about flights to book a hotel").agentsUsed ∧
    "Booking Navigator" ∈
      (handleMessage envNone upstreamOk failParse 0
        "teach me about flights to book a hotel").agentsUsed := by
  have h := handleMessage_nonexclusive envNone upstreamOk failParse 0
    "teach me about flights to book a hotel" rfl
  exact ⟨h.2.2.2.2.2.1, h.2.2.2.2.2.2⟩

/-- C9 (confirmed): classification is case-insensitive — two messages equal
up to letter case (same character-wise lowercasing) get the same Boolean
from each of the four predicates, hence `handleMessage` picks the same
branch and the same `agentsUsed` for both. -/
theorem classification_case_insensitive (m1 m2 : String)
    (h : strToLower m1 = strToLower m2) (env : Env) (up : Upstream)
    (parse : String → Except Unit RawProject) (now : Nat) :
    isLearningQuery m1 = isLearningQuery m2 ∧
    isBookingQuery m1 = isBookingQuery m2 ∧
    isCodeQuery m1 = isCodeQuery m2 ∧
    isProjectGenerationQuery m1 = isProjectGenerationQuery m2 ∧
    (handleMessage env up parse now m1).agentsUsed =
      (handleMessage env up parse now m2).agentsUsed := by
  have hL : isLearningQuery m1 = isLearningQuery m2 := by
    simp only [isLearningQuery, h]
  have hB : isBookingQuery m1 = isBookingQuery m2 := by
    simp only [isBookingQuery, h]
  have hC : isCodeQuery m1 = isCodeQuery m2 := by
    simp only [isCodeQuery, h]
  have hP : isProjectGenerationQuery m1 = isProjectGenerationQuery m2 := by
    simp only [isProjectGenerationQuery, h]
  refine ⟨hL, hB, hC, hP, ?_⟩
  by_cases hp : isProjectGenerationQuery m1 = true
  · have hp2 : isProjectGenerationQuery m2 = true := hP ▸ hp
    simp [handleMessage, hp, hp2]
  · have hp1 : isProjectGenerationQuery m1 = false := by
      cases hx : isProjectGenerationQuery m1
      · rfl
      · exact absurd hx hp
    have hp2 : isProjectGenerationQuery m2 = false := hP ▸ hp1
    simp [handleMessage, hp1, hp2, hL, hB, hC]

/-- C9 witness: `"BOOK a Flight"` and `"book a flight"` classify alike. -/
theorem classification_case_insensitive_witness :
    isBookingQuery "BOOK a Flight" = isBookingQuery "book a flight" ∧
    (handleMessage envNone upstreamOk failParse 0 "BOOK a Flight").agentsUsed =
      (handleMessage envNone upstreamOk failParse 0 "book a flight").agentsUsed := by
  have h := classification_case_insensitive "BOOK a Flight" "book a flight" rfl
    envNone upstreamOk failParse 0
  exact ⟨h.2.1, h.2.2.2.2⟩

end Agentverse
